import Mathlib

/-!
# Verification of the SAGA webhook relay

Shallow embedding of the SAGA repository (a Slack slash-command relay that
verifies Slack request signatures and forwards commands as GitHub
`repository_dispatch` events) together with proofs about its behaviour.

The repository contains one design repeated in several variants:
* `index.ts` — the two-stage variant: an acknowledger Lambda (verify, decode,
  asynchronously invoke a worker Lambda, answer `200`) and a worker Lambda
  (dispatch to GitHub, then notify the caller via `response_url`).
* `part_001` — the fire-and-forget variant: one handler that verifies
  (returning `401` on failure), decodes, starts an unawaited background task
  (validate event type, dispatch, notify) and answers `200` immediately.
* `part_002` / `part_003` — older variants with an inverted signature
  comparison in `authorize` and no freshness/header checks; `part_002`
  additionally sends a best-effort broadcast notification to a production
  channel.

Machine integers are modelled as `Nat` with explicit reduction modulo `2^32`
where the JavaScript/crypto code relies on 32-bit arithmetic (SHA-256).
JavaScript strings are modelled as Lean `String`/`List Char`; byte buffers as
`List Nat` (each element `< 256`).  `undefined`-able values are `Option`s, and
JavaScript truthiness of strings (`!x`) is `jsFalsy`.
-/

namespace Saga

/-! ## Bytes, 32-bit words -/

/-- Truncation to a 32-bit word. -/
def w32 (x : Nat) : Nat := x % 4294967296

/-- 32-bit right rotation by `n`. -/
def rotr (n x : Nat) : Nat := w32 (x / 2 ^ n + x % 2 ^ n * 2 ^ (32 - n))

/-- Logical right shift by `n`. -/
def shr (n x : Nat) : Nat := x / 2 ^ n

/-- Big-endian bytes (length `k`) of a natural number. -/
def natBytesBE (k n : Nat) : List Nat :=
  (List.range k).map fun i => n / 2 ^ (8 * (k - 1 - i)) % 256

/-! ## UTF-8 encoding and decoding

JavaScript strings handed to `crypto`, `Buffer` and `querystring` are
byte-encoded as UTF-8; `Buffer.prototype.toString('utf-8')` decodes bytes
back, substituting U+FFFD for malformed sequences (it never throws).  The
encoder below follows RFC 3629 exactly; the decoder accepts exactly the
well-formed shortest-form sequences and substitutes U+FFFD otherwise. -/

/-- UTF-8 bytes of a single code point. -/
def utf8Char (n : Nat) : List Nat :=
  if n < 128 then [n]
  else if n < 2048 then [192 + n / 64, 128 + n % 64]
  else if n < 65536 then [224 + n / 4096, 128 + n / 64 % 64, 128 + n % 64]
  else [240 + n / 262144, 128 + n / 4096 % 64, 128 + n / 64 % 64, 128 + n % 64]

/-- UTF-8 bytes of a character list. -/
def utf8Chars : List Char → List Nat
  | [] => []
  | c :: r => utf8Char c.toNat ++ utf8Chars r

/-- UTF-8 bytes of a string (the bytes Node.js sees for a JS string). -/
def utf8Encode (s : String) : List Nat := utf8Chars s.data

/-- The replacement character U+FFFD emitted for malformed UTF-8. -/
def repl : Char := Char.ofNat 65533

/-- A UTF-8 continuation byte `10xxxxxx`. -/
def isCont (b : Nat) : Bool := 128 ≤ b && b < 192

/-- Classify a lead byte: either a directly decoded character (ASCII, or
U+FFFD for an invalid lead byte) or a pending multi-byte state
`(continuations still needed, accumulated value, minimal legal value)`.
Lead bytes `0xC0`/`0xC1` (always overlong) and `≥ 0xF5` (out of range) are
invalid. -/
def utf8Lead (b : Nat) : Char ⊕ (Nat × Nat × Nat) :=
  if b < 128 then .inl (Char.ofNat b)
  else if b < 194 then .inl repl
  else if b < 224 then .inr (1, b - 192, 128)
  else if b < 240 then .inr (2, b - 224, 2048)
  else if b < 245 then .inr (3, b - 240, 65536)
  else .inl repl

/-- Finish a multi-byte sequence: overlong, surrogate and out-of-range
values decode to U+FFFD. -/
def utf8Finish (mn acc : Nat) : Char :=
  if acc < mn || (55296 ≤ acc && acc ≤ 57343) || 1114112 ≤ acc then repl
  else Char.ofNat acc

/-- The byte-at-a-time UTF-8 decoding automaton: `none` between sequences, a
pending `utf8Lead` state inside one.  A non-continuation byte inside a
sequence emits U+FFFD and is reprocessed as a lead byte. -/
def utf8Run : Option (Nat × Nat × Nat) → List Nat → List Char
  | none, [] => []
  | none, b :: r =>
    match utf8Lead b with
    | .inl c => c :: utf8Run none r
    | .inr st => utf8Run (some st) r
  | some _, [] => [repl]
  | some st, b :: r =>
    if isCont b then
      if st.1 = 1 then utf8Finish st.2.2 (st.2.1 * 64 + (b - 128)) :: utf8Run none r
      else utf8Run (some (st.1 - 1, st.2.1 * 64 + (b - 128), st.2.2)) r
    else
      repl ::
        (match utf8Lead b with
         | .inl c => c :: utf8Run none r
         | .inr st2 => utf8Run (some st2) r)

/-- Total UTF-8 decoder (malformed input yields U+FFFD, as Node's
`Buffer.prototype.toString('utf-8')` does; it never fails). -/
def utf8DecodeList (l : List Nat) : List Char := utf8Run none l

/-- Decode UTF-8 bytes to a string. -/
def utf8DecodeStr (l : List Nat) : String := String.mk (utf8DecodeList l)

/-! ## SHA-256 (FIPS 180-4), used by `crypto.createHmac('sha256', …)` -/

/-- SHA-256 round constants (fractional parts of cube roots of the first 64
primes). -/
def sha256K : List Nat := [
  1116352408, 1899447441, 3049323471, 3921009573, 961987163,
  1508970993, 2453635748, 2870763221, 3624381080, 310598401,
  607225278, 1426881987, 1925078388, 2162078206, 2614888103,
  3248222580, 3835390401, 4022224774, 264347078, 604807628,
  770255983, 1249150122, 1555081692, 1996064986, 2554220882,
  2821834349, 2952996808, 3210313671, 3336571891, 3584528711,
  113926993, 338241895, 666307205, 773529912, 1294757372,
  1396182291, 1695183700, 1986661051, 2177026350, 2456956037,
  2730485921, 2820302411, 3259730800, 3345764771, 3516065817,
  3600352804, 4094571909, 275423344, 430227734, 506948616,
  659060556, 883997877, 958139571, 1322822218, 1537002063,
  1747873779, 1955562222, 2024104815, 2227730452, 2361852424,
  2428436474, 2756734187, 3204031479, 3329325298]

/-- The eight 32-bit words of a SHA-256 state. -/
structure Hash8 where
  a : Nat
  b : Nat
  c : Nat
  d : Nat
  e : Nat
  f : Nat
  g : Nat
  h : Nat
deriving Repr, DecidableEq

/-- SHA-256 initial state. -/
def sha256Init : Hash8 :=
  ⟨1779033703, 3144134277, 1013904242, 2773480762, 1359893119, 2600822924, 528734635, 1541459225⟩

/-- Group bytes into big-endian 32-bit words. -/
def words16 : List Nat → List Nat
  | b0 :: b1 :: b2 :: b3 :: r => (b0 * 16777216 + b1 * 65536 + b2 * 256 + b3) :: words16 r
  | _ => []

/-- Extend the 16-word schedule by `n` further words. -/
def extendW : List Nat → Nat → List Nat
  | w, 0 => w
  | w, n + 1 =>
    let s1 := fun x => rotr 17 x ^^^ rotr 19 x ^^^ shr 10 x
    let s0 := fun x => rotr 7 x ^^^ rotr 18 x ^^^ shr 3 x
    let t := w32 (s1 (w.getD (w.length - 2) 0) + w.getD (w.length - 7) 0 +
      s0 (w.getD (w.length - 15) 0) + w.getD (w.length - 16) 0)
    extendW (w ++ [t]) n

/-- One SHA-256 round. -/
def sha256Round (s : Hash8) (kw : Nat × Nat) : Hash8 :=
  let ch := (s.e &&& s.f) ^^^ ((s.e ^^^ 4294967295) &&& s.g)
  let maj := (s.a &&& s.b) ^^^ (s.a &&& s.c) ^^^ (s.b &&& s.c)
  let bs1 := rotr 6 s.e ^^^ rotr 11 s.e ^^^ rotr 25 s.e
  let bs0 := rotr 2 s.a ^^^ rotr 13 s.a ^^^ rotr 22 s.a
  let t1 := w32 (s.h + bs1 + ch + kw.1 + kw.2)
  let t2 := w32 (bs0 + maj)
  ⟨w32 (t1 + t2), s.a, s.b, s.c, w32 (s.d + t1), s.e, s.f, s.g⟩

/-- Compress one 64-byte block into the running state. -/
def sha256Compress (h : Hash8) (block : List Nat) : Hash8 :=
  let w := extendW (words16 block) 48
  let s := (sha256K.zip w).foldl sha256Round h
  ⟨w32 (h.a + s.a), w32 (h.b + s.b), w32 (h.c + s.c), w32 (h.d + s.d),
   w32 (h.e + s.e), w32 (h.f + s.f), w32 (h.g + s.g), w32 (h.h + s.h)⟩

/-- Split a byte list into 64-byte chunks. -/
def chunks64 (l : List Nat) : List (List Nat) :=
  if h : l = [] then [] else l.take 64 :: chunks64 (l.drop 64)
termination_by l.length
decreasing_by
  simp only [List.length_drop]
  cases l with
  | nil => exact absurd rfl h
  | cons x xs => simp; omega

/-- SHA-256 message padding. -/
def padBytes (msg : List Nat) : List Nat :=
  msg ++ 128 :: List.replicate ((64 + 55 - msg.length % 64) % 64) 0 ++
    natBytesBE 8 (msg.length * 8)

/-- SHA-256 digest (32 bytes) of a byte message. -/
def sha256Bytes (msg : List Nat) : List Nat :=
  let s := (chunks64 (padBytes msg)).foldl sha256Compress sha256Init
  natBytesBE 4 s.a ++ natBytesBE 4 s.b ++ natBytesBE 4 s.c ++ natBytesBE 4 s.d ++
    natBytesBE 4 s.e ++ natBytesBE 4 s.f ++ natBytesBE 4 s.g ++ natBytesBE 4 s.h

/-- HMAC-SHA256 (RFC 2104) over byte lists, as computed by Node's
`crypto.createHmac('sha256', key).update(msg).digest()`. -/
def hmacSha256 (key msg : List Nat) : List Nat :=
  let k1 := if 64 < key.length then sha256Bytes key else key
  let k0 := k1 ++ List.replicate (64 - k1.length) 0
  let ipad := k0.map fun b => b ^^^ 54
  let opad := k0.map fun b => b ^^^ 92
  sha256Bytes (opad ++ sha256Bytes (ipad ++ msg))

/-- Lower-case hex digit for a value `< 16` (`digest('hex')`). -/
def hexDigit (v : Nat) : Char := Char.ofNat (if v < 10 then 48 + v else 87 + v)

/-- Lower-case hex characters of a byte list. -/
def hexChars : List Nat → List Char
  | [] => []
  | b :: r => hexDigit (b / 16 % 16) :: hexDigit (b % 16) :: hexChars r

/-- `crypto.createHmac('sha256', secret).update(msg).digest('hex')` for string
inputs (Node encodes both as UTF-8). -/
def hmacSha256Hex (key msg : List Nat) : String := String.mk (hexChars (hmacSha256 key msg))

/-- The Slack signature for a given secret, timestamp header value and raw
body: `"v0=" + hex(HMAC-SHA256(secret, "v0:" + timestamp + ":" + rawBody))`.
This is exactly the string every `authorize` variant computes and compares
against the `X-Slack-Signature` header. -/
def signSlack (secret ts body : String) : String :=
  "v0=" ++ hmacSha256Hex (utf8Encode secret) (utf8Encode ("v0:" ++ ts ++ ":" ++ body))

/-! ## JavaScript value helpers -/

/-- JavaScript falsiness of a possibly-`undefined` string: `!x` is true
exactly for `undefined` and the empty string. -/
def jsFalsy : Option String → Bool
  | none => true
  | some s => s = ""

/-- JavaScript template interpolation of a possibly-`undefined` string
(`` `${x}` `` prints `undefined` for `undefined`). -/
def jsStr : Option String → String
  | none => "undefined"
  | some s => s

/-- `parseInt(s, 10)`: skip leading whitespace, optional sign, then leading
decimal digits; `none` models `NaN` (no digits). -/
def parseIntJS (s : String) : Option Int :=
  let l := s.data.dropWhile fun c => c = ' ' || c = '\t' || c = '\n' || c = '\r'
  let digitsVal : List Char → Option Nat := fun r =>
    let d := r.takeWhile fun c => '0' ≤ c && c ≤ '9'
    if d.isEmpty then none else some (d.foldl (fun a c => 10 * a + (c.toNat - 48)) 0)
  match l with
  | '-' :: r => (digitsVal r).map fun n => -(n : Int)
  | '+' :: r => (digitsVal r).map fun n => (n : Int)
  | r => (digitsVal r).map fun n => (n : Int)

/-- `String.prototype.split(sep)` for a single-character separator: split at
every occurrence, keeping empty pieces; `"".split(sep)` is `[""]`. -/
def splitChar (sep : Char) : List Char → List (List Char)
  | [] => [[]]
  | x :: xs =>
    match splitChar sep xs with
    | [] => [[]]
    | cur :: rest => if x = sep then [] :: cur :: rest else (x :: cur) :: rest

/-- Join pieces with a separator character (inverse of `splitChar`). -/
def intercalateCh (sep : Char) : List (List Char) → List Char
  | [] => []
  | [p] => p
  | p :: ps => p ++ sep :: intercalateCh sep ps

/-- Split at the first occurrence of `sep`: the part before it and, when
`sep` occurs, the part after it. -/
def splitFirst (sep : Char) : List Char → List Char × Option (List Char)
  | [] => ([], none)
  | c :: r =>
    if c = sep then ([], some r)
    else
      let kv := splitFirst sep r
      (c :: kv.1, kv.2)

/-- `String.prototype.split(sep)` on strings. -/
def jsSplit (sep : Char) (s : String) : List String :=
  (splitChar sep s.data).map String.mk

/-- The worker's argument derivation `body.text?.split(' ') || []`: an absent
text gives `[]`; a present text (the empty string included) is split on
single spaces. -/
def jsSplitArgs : Option String → List String
  | none => []
  | some s => jsSplit ' ' s

/-! ## Percent-escaping (Node `querystring` escape/unescape) -/

/-- Bytes left unescaped by Node's `querystring.escape`
(alphanumerics and `- _ . ! ~ * ' ( )`). -/
def unreservedByte (b : Nat) : Bool :=
  (48 ≤ b && b ≤ 57) || (65 ≤ b && b ≤ 90) || (97 ≤ b && b ≤ 122) ||
    b = 45 || b = 95 || b = 46 || b = 33 || b = 126 || b = 42 || b = 39 || b = 40 || b = 41

/-- Upper-case hex digit for a value `< 16` (percent-escapes use upper case). -/
def hexDigitU (v : Nat) : Char := Char.ofNat (if v < 10 then 48 + v else 55 + v)

/-- Percent-escape a UTF-8 byte sequence. -/
def escBytes : List Nat → List Char
  | [] => []
  | b :: r =>
    (if unreservedByte b then [Char.ofNat b]
     else ['%', hexDigitU (b / 16 % 16), hexDigitU (b % 16)]) ++ escBytes r

/-- `querystring.escape`: percent-escape the UTF-8 bytes of a string. -/
def qsEscape (s : String) : String := String.mk (escBytes (utf8Encode s))

/-- Value of a hex digit character (either case), `none` otherwise. -/
def hexVal (c : Char) : Option Nat :=
  if '0' ≤ c && c ≤ '9' then some (c.toNat - 48)
  else if 'A' ≤ c && c ≤ 'F' then some (c.toNat - 55)
  else if 'a' ≤ c && c ≤ 'f' then some (c.toNat - 87)
  else none

/-- The percent-decoding automaton, one character at a time: state `none`
outside an escape, `some none` right after a `%`, `some (some h)` after `%h`
with `h` a hex digit.  A broken escape keeps the `%` (byte 37) and the
already-seen hex digit literally and reprocesses the offending character. -/
def unescRun : Option (Option Char) → List Char → List Nat
  | none, [] => []
  | none, c :: r =>
    if c = '%' then unescRun (some none) r
    else if c = '+' then 32 :: unescRun none r
    else utf8Char c.toNat ++ unescRun none r
  | some none, [] => [37]
  | some none, c :: r =>
    match hexVal c with
    | some _ => unescRun (some (some c)) r
    | none =>
      37 :: (if c = '%' then unescRun (some none) r
             else if c = '+' then 32 :: unescRun none r
             else utf8Char c.toNat ++ unescRun none r)
  | some (some h), [] => [37, h.toNat]
  | some (some h), c :: r =>
    match hexVal h, hexVal c with
    | some x, some y => (16 * x + y) :: unescRun none r
    | _, _ =>
      37 :: h.toNat ::
        (if c = '%' then unescRun (some none) r
         else if c = '+' then 32 :: unescRun none r
         else utf8Char c.toNat ++ unescRun none r)

/-- `querystring.unescape`, byte phase: `%XX` becomes the byte `XX`, `+`
becomes a space, any other character contributes its UTF-8 bytes; broken
escapes are kept literally.  Total: malformed input is never an error. -/
def unescBytes (l : List Char) : List Nat := unescRun none l

/-- `querystring.unescape` on strings (decode bytes back as UTF-8). -/
def qsUnescape (s : String) : String := utf8DecodeStr (unescBytes s.data)

/-! ## Base64 (Node `Buffer.from(s, 'base64')` / `toString('base64')`) -/

/-- The base64 alphabet character for a 6-bit value. -/
def b64Char (v : Nat) : Char :=
  if v < 26 then Char.ofNat (65 + v)
  else if v < 52 then Char.ofNat (97 + (v - 26))
  else if v < 62 then Char.ofNat (48 + (v - 52))
  else if v = 62 then '+'
  else '/'

/-- The 6-bit value of a base64 alphabet character; `none` for everything
else (`=` padding included) — Node's decoder skips such characters. -/
def b64Val (c : Char) : Option Nat :=
  if 'A' ≤ c && c ≤ 'Z' then some (c.toNat - 65)
  else if 'a' ≤ c && c ≤ 'z' then some (c.toNat - 71)
  else if '0' ≤ c && c ≤ '9' then some (c.toNat + 4)
  else if c = '+' then some 62
  else if c = '/' then some 63
  else none

/-- Base64-encode a byte list (standard alphabet, `=` padding). -/
def b64EncodeBytes : List Nat → List Char
  | b1 :: b2 :: b3 :: rest =>
    b64Char (b1 / 4) :: b64Char (b1 % 4 * 16 + b2 / 16) ::
      b64Char (b2 % 16 * 4 + b3 / 64) :: b64Char (b3 % 64) :: b64EncodeBytes rest
  | [b1, b2] =>
    [b64Char (b1 / 4), b64Char (b1 % 4 * 16 + b2 / 16), b64Char (b2 % 16 * 4), '=']
  | [b1] => [b64Char (b1 / 4), b64Char (b1 % 4 * 16), '=', '=']
  | [] => []

/-- Reassemble bytes from a stream of 6-bit values (trailing 6/12/18 bits
yield 0/1/2 extra bytes, as Node does). -/
def b64DecodeVals : List Nat → List Nat
  | v1 :: v2 :: v3 :: v4 :: rest =>
    (v1 * 4 + v2 / 16) :: (v2 % 16 * 16 + v3 / 4) :: (v3 % 4 * 64 + v4) :: b64DecodeVals rest
  | [v1, v2] => [v1 * 4 + v2 / 16]
  | [v1, v2, v3] => [v1 * 4 + v2 / 16, v2 % 16 * 16 + v3 / 4]
  | _ => []

/-- `Buffer.from(s, 'base64')`: total — characters outside the base64
alphabet (padding included) are skipped, never an error. -/
def b64Decode (s : String) : List Nat := b64DecodeVals (s.data.filterMap b64Val)

/-- `Buffer.from(bytes).toString('base64')`. -/
def b64Encode (l : List Nat) : String := String.mk (b64EncodeBytes l)

/-! ## Query-string parse/stringify (Node `querystring`) -/

/-- One `k=v` segment: split at the first `=` (a segment without `=` has
value `''`), unescape both sides. -/
def parsePair (part : List Char) : String × String :=
  let kv := splitFirst '=' part
  (utf8DecodeStr (unescBytes kv.1), utf8DecodeStr (unescBytes (kv.2.getD [])))

/-- `querystring.parse`: `''` gives the empty mapping, otherwise split on
`&` and parse each `k=v` segment, keeping only the first 1000 pairs — the
default `maxKeys = 1000` limit, under which Node stops parsing and discards
the remaining segments.  Total: never an error, always a flat
string-to-string mapping.  One simplification against Node: duplicate keys
are kept in order as pairs (Node collects them into an array; the payloads
of interest have distinct keys). -/
def parseQS (s : String) : List (String × String) :=
  if s.data = [] then [] else ((splitChar '&' s.data).take 1000).map parsePair

/-- `querystring.stringify` on a flat string-to-string mapping. -/
def stringifyQS (m : List (String × String)) : String :=
  String.mk (intercalateCh '&'
    (m.map fun kv => escBytes (utf8Encode kv.1) ++ '=' :: escBytes (utf8Encode kv.2)))

/-! ## The signature verifiers (`authorize`)

Throwing is modelled as `Except String Unit` with the thrown messages. -/

/-- The replay check of `index.ts`:
`Math.abs(Date.now() / 1000 - parseInt(timestamp, 10)) > 60 * 5`, modelled
exactly as `|nowMs - 1000 * t| > 300000` where `nowMs` is `Date.now()`.  A
non-numeric timestamp is `NaN`; `Math.abs(NaN) > 300` is `false`, so the
check passes. -/
def staleIndex (timestamp : Option String) (nowMs : Int) : Bool :=
  match parseIntJS (jsStr timestamp) with
  | some t => decide (300000 < |nowMs - 1000 * t|)
  | none => false

/-- `authorize` of `index.ts` (lines 32–59): reject missing headers, a stale
timestamp (`staleIndex`), and any signature other than `signSlack`. -/
def authorizeIndex (slackSigningSecret rawBody : String)
    (signature timestamp : Option String) (nowMs : Int) : Except String Unit :=
  if jsFalsy signature || jsFalsy timestamp then
    .error "Missing Slack signature or timestamp headers"
  else if staleIndex timestamp nowMs then
    .error "Slack request timestamp is too old"
  else if signSlack slackSigningSecret (jsStr timestamp) rawBody ≠ jsStr signature then
    .error "Slack signature verification failed"
  else .ok ()

/-- The replay check of `part_001`: one-sided,
`parseInt(timestamp) < Math.floor(Date.now() / 1000) - 60 * 5` with `nowSec`
the floored current time in seconds (`NaN` again passes). -/
def stalePart1 (timestamp : Option String) (nowSec : Int) : Bool :=
  match parseIntJS (jsStr timestamp) with
  | some t => decide (t < nowSec - 300)
  | none => false

/-- `authorize` of `part_001` (lines 37–61): like `authorizeIndex` but also
rejects an unconfigured secret, with the one-sided freshness check
`stalePart1`. -/
def authorizePart1 (slackSigningSecret : Option String) (rawBody : String)
    (signature timestamp : Option String) (nowSec : Int) : Except String Unit :=
  if jsFalsy slackSigningSecret || jsFalsy signature || jsFalsy timestamp then
    .error "Missing Slack signing secret or request headers for verification."
  else if stalePart1 timestamp nowSec then
    .error "Slack request timestamp is too old."
  else if signSlack (jsStr slackSigningSecret) (jsStr timestamp) rawBody ≠ jsStr signature then
    .error "Slack signature verification failed."
  else .ok ()

/-- `authorize` of `part_002` (lines 31–42, identical in `part_003`): no
header-presence or freshness checks, and the comparison is inverted — it
throws when `signature === `\x7b`version`\x7d`=`\x7b`hash`\x7d`` HOLDS (so a correct
signature is rejected and any other value, an absent header included, is
accepted).  An absent timestamp is interpolated as `"undefined"` into the
base string. -/
def authorizePart2 (slackSigningSecret rawBody : String)
    (signature timestamp : Option String) : Except String Unit :=
  if signature = some (signSlack slackSigningSecret (jsStr timestamp) rawBody) then
    .error "The Slack App installation token doesn't match the one set on saga's record"
  else .ok ()

/-! ## Parsed command, dispatch requests, notifications -/

/-- The fields of the parsed slash-command payload that the handlers read
(`querystring.parse` output is a flat string map; absent keys are
`undefined`). -/
structure SlackCmd where
  command : Option String
  user_name : Option String
  text : Option String
  response_url : Option String
deriving Repr, DecidableEq

/-- First value for a key in a parsed query-string mapping. -/
def lookupQS (m : List (String × String)) (k : String) : Option String :=
  (m.find? fun kv => kv.1 = k).map fun kv => kv.2

/-- View a parsed query-string mapping as the command structure. -/
def toCmd (m : List (String × String)) : SlackCmd :=
  { command := lookupQS m "command", user_name := lookupQS m "user_name",
    text := lookupQS m "text", response_url := lookupQS m "response_url" }

/-- `client_payload` of the GitHub dispatch call:
`{ ...pick(body, 'command', 'user_name'), args }` (lodash `pick` keeps a
field only when present, hence the `Option`s). -/
structure ClientPayload where
  command : Option String
  user_name : Option String
  args : List String
deriving Repr, DecidableEq

/-- One `createDispatchEvent` call issued to GitHub. -/
structure DispatchRequest where
  owner : String
  repo : String
  event_type : String
  client_payload : ClientPayload
deriving Repr, DecidableEq

/-- One follow-up message delivered via `axios.post` (`url` is the posted-to
`response_url`; `channel` is set only by `part_002`'s broadcast). -/
structure Notification where
  url : Option String
  channel : Option String
  text : String
deriving Repr, DecidableEq

/-- Observable effects of one background phase: the GitHub dispatch calls
issued and the notifications delivered.  Failing `axios` sends are modelled
by the `Except Unit Unit` outcome parameters: a failed send is not recorded
as a delivered notification, it only diverts control to the `catch`. -/
structure WorkerResult where
  dispatches : List DispatchRequest
  messages : List Notification
deriving Repr, DecidableEq

/-! ## The worker of `index.ts` (lines 72–98) -/

/-- Success text of the `index.ts` worker. -/
def indexSuccessText (eventType : Option String) : String :=
  "✅ Successfully triggered GitHub Action: `" ++ jsStr eventType ++ "`"

/-- Failure text of the `index.ts` worker. -/
def indexFailText : String :=
  "❌ Failed to trigger GitHub Action. Check CloudWatch logs for details."

/-- Effects of one run of the `index.ts` worker: the dispatch calls issued,
the notifications actually delivered, and whether a fault escaped the
callback (`crashed`: the `catch`'s own `await respondToSlack(…)` rejected,
so the background phase ends with an unhandled rejection and no message). -/
structure WorkerIndexResult where
  dispatches : List DispatchRequest
  messages : List Notification
  crashed : Bool
deriving Repr, DecidableEq

/-- The `index.ts` worker Lambda body: derive `args`, always dispatch
(`event_type` is `` `saga-${eventType}` `` even when `args` is empty and
`eventType` is `undefined` — there is no validation step in this variant),
then notify.  Control flow of the `try`/`catch`: the dispatch
(`dispatchOutcome`) and the success send (`successSendOutcome`, the awaited
`respondToSlack` on line 93, still inside the `try`) both route their
failure to the single `catch`, which awaits the failure-text send
(`failSendOutcome`); if that send also rejects, the rejection escapes the
callback.  A failed send delivers no message. -/
def workerIndex (owner repo : String) (body : SlackCmd)
    (dispatchOutcome successSendOutcome failSendOutcome : Except Unit Unit) : WorkerIndexResult :=
  let args := jsSplitArgs body.text
  let eventType := args.head?
  let d : DispatchRequest :=
    { owner := owner, repo := repo, event_type := "saga-" ++ jsStr eventType,
      client_payload := { command := body.command, user_name := body.user_name, args := args } }
  match dispatchOutcome with
  | .ok _ =>
    match successSendOutcome with
    | .ok _ =>
      { dispatches := [d], messages := [⟨body.response_url, none, indexSuccessText eventType⟩],
        crashed := false }
    | .error _ =>
      match failSendOutcome with
      | .ok _ =>
        { dispatches := [d], messages := [⟨body.response_url, none, indexFailText⟩],
          crashed := false }
      | .error _ => { dispatches := [d], messages := [], crashed := true }
  | .error _ =>
    match failSendOutcome with
    | .ok _ =>
      { dispatches := [d], messages := [⟨body.response_url, none, indexFailText⟩],
        crashed := false }
    | .error _ => { dispatches := [d], messages := [], crashed := true }

/-! ## The fire-and-forget handler of `part_001` (lines 69–139) -/

/-- Validation text sent by `part_001` when the event type is missing. -/
def part1UsageText : String :=
  "Error: Please provide a command. For example: `/your-command deploy`"

/-- Success text of `part_001`. -/
def part1SuccessText (eventType : String) : String :=
  "✅ Successfully triggered GitHub Action for `" ++ eventType ++ "`!"

/-- Failure text of `part_001`. -/
def part1FailText : String :=
  "❌ Failed to trigger GitHub Actions. Please check the logs for details."

/-- `runBackgroundTask` of `part_001` (lines 94–124): a falsy event type
(`!eventType`: empty `args`, or an empty first token) short-circuits with the
usage message and no dispatch; otherwise dispatch once and send exactly one
outcome message. -/
def runBackgroundTask1 (owner repo : String) (body : SlackCmd)
    (dispatchOutcome : Except Unit Unit) : WorkerResult :=
  let args := jsSplitArgs body.text
  let eventType := args.head?
  if jsFalsy eventType then
    { dispatches := [], messages := [⟨body.response_url, none, part1UsageText⟩] }
  else
    let d : DispatchRequest :=
      { owner := owner, repo := repo, event_type := "saga-" ++ jsStr eventType,
        client_payload := { command := body.command, user_name := body.user_name, args := args } }
    match dispatchOutcome with
    | .ok _ =>
      { dispatches := [d], messages := [⟨body.response_url, none, part1SuccessText (jsStr eventType)⟩] }
    | .error _ => { dispatches := [d], messages := [⟨body.response_url, none, part1FailText⟩] }

/-- An HTTP response together with the effects of the request. -/
structure HttpResult where
  statusCode : Nat
  dispatches : List DispatchRequest
  messages : List Notification
deriving Repr, DecidableEq

/-- The `part_001` endpoint handler: `authorize` failure is caught and
answered with `401` before anything else runs; then the body is decoded
(base64, then query-string) and the background task started; the handler
itself answers `200`.  An absent body that passes `authorize` would make
`Buffer.from(undefined, 'base64')` throw: an unhandled fault, modelled as
`500` with no effects. -/
def part1Handler (secret : Option String) (owner repo : String)
    (rawBody : Option String) (signature timestamp : Option String) (nowSec : Int)
    (dispatchOutcome : Except Unit Unit) : HttpResult :=
  match authorizePart1 secret (jsStr rawBody) signature timestamp nowSec with
  | .error _ => { statusCode := 401, dispatches := [], messages := [] }
  | .ok _ =>
    match rawBody with
    | none => { statusCode := 500, dispatches := [], messages := [] }
    | some raw =>
      let body := toCmd (parseQS (utf8DecodeStr (b64Decode raw)))
      let r := runBackgroundTask1 owner repo body dispatchOutcome
      { statusCode := 200, dispatches := r.dispatches, messages := r.messages }

/-! ## The acknowledger of `index.ts` (lines 137–177) -/

/-- Result of the acknowledger: its HTTP status and the worker-Lambda
invocations it issued (each carrying the parsed body as payload).  The
GitHub dispatch happens only inside an invoked worker, so an empty
invocation list means zero downstream dispatch calls. -/
structure AckResult where
  statusCode : Nat
  workerInvocations : List (List (String × String))
deriving Repr, DecidableEq

/-- The `index.ts` acknowledger Lambda: `400` for a falsy (absent or empty)
body; then `authorize` and the asynchronous worker invocation inside one
`try` whose `catch` answers `500` — an authentication failure is therefore
answered with `500`, not `401`, in this variant.  `invokeOutcome` is the
result of `lambdaClient.send` (the invocation attempt is recorded either
way); on success the handler answers `200`. -/
def acknowledgerIndex (secret : String) (rawBody : Option String)
    (signature timestamp : Option String) (nowMs : Int)
    (invokeOutcome : Except Unit Unit) : AckResult :=
  if jsFalsy rawBody then { statusCode := 400, workerInvocations := [] }
  else
    match authorizeIndex secret (jsStr rawBody) signature timestamp nowMs with
    | .error _ => { statusCode := 500, workerInvocations := [] }
    | .ok _ =>
      let body := parseQS (utf8DecodeStr (b64Decode (jsStr rawBody)))
      match invokeOutcome with
      | .error _ => { statusCode := 500, workerInvocations := [body] }
      | .ok _ => { statusCode := 200, workerInvocations := [body] }

/-! ## The `part_002` handler (lines 44–97) -/

/-- Failure text of `part_002`. -/
def p2FailText : String := "Failed to trigger GitHub Actions - see saga cloudwatch logs for details"

/-- The hard-coded broadcast channel of `notifyProdChannel`. -/
def p2ProdChannel : String := "CR4MU5RLN"

/-- `actions[eventType]` in `notifyProdChannel`: a lookup in
`{ tag: …, deploy: … }`; any other event type reads `undefined`. -/
def p2ActionText (eventType : String) : String :=
  if eventType = "tag" then "tagged a new release"
  else if eventType = "deploy" then "triggered a deployment"
  else "undefined"

/-- The `try` block of `part_002`'s handler (lines 73–89): `args` is
`body.text?.split(' ')` with NO `|| []` fallback, so an absent text makes
`args[0]` throw a `TypeError`, caught by the same `catch` as a dispatch
failure.  On dispatch success it awaits `respondToSlack('On it!')` and then
`notifyProdChannel` — both still inside the `try`, so a failure of either
lands in the `catch` and sends the generic failure message. -/
def part2Background (owner repo : String) (body : SlackCmd)
    (dispatchOutcome primaryOutcome secondaryOutcome : Except Unit Unit) : WorkerResult :=
  match body.text with
  | none => { dispatches := [], messages := [⟨body.response_url, none, p2FailText⟩] }
  | some t =>
    let args := jsSplit ' ' t
    let eventType := jsStr args.head?
    let d : DispatchRequest :=
      { owner := owner, repo := repo, event_type := "saga-" ++ eventType,
        client_payload := { command := body.command, user_name := body.user_name, args := args } }
    match dispatchOutcome with
    | .error _ => { dispatches := [d], messages := [⟨body.response_url, none, p2FailText⟩] }
    | .ok _ =>
      match primaryOutcome with
      | .error _ => { dispatches := [d], messages := [⟨body.response_url, none, p2FailText⟩] }
      | .ok _ =>
        match secondaryOutcome with
        | .error _ =>
          { dispatches := [d],
            messages := [⟨body.response_url, none, "On it!"⟩, ⟨body.response_url, none, p2FailText⟩] }
        | .ok _ =>
          { dispatches := [d],
            messages := [⟨body.response_url, none, "On it!"⟩,
              ⟨body.response_url, some p2ProdChannel,
                jsStr body.user_name ++ " " ++ p2ActionText eventType⟩] }

/-- Result of the `part_002` handler; `crashed` marks an exception escaping
the handler (its `authorize` call is outside any `try`). -/
structure Part2Result where
  crashed : Bool
  statusCode : Option Nat
  dispatches : List DispatchRequest
  messages : List Notification
deriving Repr, DecidableEq

/-- The `part_002` endpoint handler: `authorize` (inverted check) runs
unprotected — its throw escapes; the body is then decoded and the `try`
block runs; the handler answers `200` with an empty body. -/
def part2Handler (secret owner repo : String) (rawBody : Option String)
    (signature timestamp : Option String)
    (dispatchOutcome primaryOutcome secondaryOutcome : Except Unit Unit) : Part2Result :=
  match authorizePart2 secret (jsStr rawBody) signature timestamp with
  | .error _ => { crashed := true, statusCode := none, dispatches := [], messages := [] }
  | .ok _ =>
    match rawBody with
    | none => { crashed := true, statusCode := none, dispatches := [], messages := [] }
    | some raw =>
      let body := toCmd (parseQS (utf8DecodeStr (b64Decode raw)))
      let r := part2Background owner repo body dispatchOutcome primaryOutcome secondaryOutcome
      { crashed := false, statusCode := some 200, dispatches := r.dispatches, messages := r.messages }

/-! ## The decode pipeline and the (spec-modelled) transport encoder -/

/-- The decoding pipeline shared by the handlers (`index.ts` line 145,
`part_001` line 80, `part_002` line 52):
`querystring.parse(Buffer.from(rawBody, 'base64').toString('utf-8'))`. -/
def decodeBody (raw : String) : List (String × String) :=
  parseQS (utf8DecodeStr (b64Decode raw))

/-- Modelled from the spec: the transport encoding applied by the external
sender (Slack), which is not part of this repository — a
"base64-of-form-encoded payload", i.e. form-url-encode the flat mapping
(`querystring.stringify`) and base64 the UTF-8 bytes of the result. -/
def slackEncode (m : List (String × String)) : String :=
  b64Encode (utf8Encode (stringifyQS m))

/-- Decidable equality for `Except` results, used to evaluate the verifiers
at concrete inputs. -/
def exceptDecEq {ε α : Type} [DecidableEq ε] [DecidableEq α] : DecidableEq (Except ε α)
  | .error a, .error b =>
    if h : a = b then .isTrue (h ▸ rfl) else .isFalse fun hh => h (by cases hh; rfl)
  | .error _, .ok _ => .isFalse fun hh => by cases hh
  | .ok _, .error _ => .isFalse fun hh => by cases hh
  | .ok a, .ok b =>
    if h : a = b then .isTrue (h ▸ rfl) else .isFalse fun hh => h (by cases hh; rfl)

instance {ε α : Type} [DecidableEq ε] [DecidableEq α] : DecidableEq (Except ε α) :=
  exceptDecEq

/-! ## Basic length lemmas -/

theorem hexChars_length (l : List Nat) : (hexChars l).length = 2 * l.length := by
  induction l with
  | nil => rfl
  | cons b r ih => simp [hexChars, ih]; omega

theorem natBytesBE_length (k n : Nat) : (natBytesBE k n).length = k := by
  simp [natBytesBE]

theorem sha256Bytes_length (msg : List Nat) : (sha256Bytes msg).length = 32 := by
  simp [sha256Bytes, natBytesBE_length]

theorem hmacSha256_length (key msg : List Nat) : (hmacSha256 key msg).length = 32 := by
  simp [hmacSha256, sha256Bytes_length]

theorem signSlack_length (secret ts body : String) : (signSlack secret ts body).length = 67 := by
  simp [signSlack, hmacSha256Hex, String.length_append, String.length,
    hexChars_length, hmacSha256_length]

/-! ## What the correct verifiers accept -/

/-- `index.ts`'s `authorize` succeeds only when the signature header equals
the computed `signSlack` value. -/
theorem authorizeIndex_ok_sig (secret raw : String) (sig ts : Option String) (nowMs : Int)
    (h : authorizeIndex secret raw sig ts nowMs = .ok ()) :
    sig = some (signSlack secret (jsStr ts) raw) := by
  unfold authorizeIndex at h
  split at h
  · exact absurd h (by simp)
  · split at h
    · exact absurd h (by simp)
    · split at h
      · exact absurd h (by simp)
      · rename_i h1 _ h3
        rw [not_not] at h3
        cases sig with
        | none => simp [jsFalsy] at h1
        | some s => exact congrArg some h3.symm

/-- `part_001`'s `authorize` succeeds only when the signature header equals
the computed `signSlack` value. -/
theorem authorizePart1_ok_sig (secret : Option String) (raw : String) (sig ts : Option String)
    (nowSec : Int) (h : authorizePart1 secret raw sig ts nowSec = .ok ()) :
    sig = some (signSlack (jsStr secret) (jsStr ts) raw) := by
  unfold authorizePart1 at h
  split at h
  · exact absurd h (by simp)
  · split at h
    · exact absurd h (by simp)
    · split at h
      · exact absurd h (by simp)
      · rename_i h1 _ h3
        rw [not_not] at h3
        cases sig with
        | none => simp [jsFalsy] at h1
        | some s => exact congrArg some h3.symm

/-- `parseIntJS` succeeds only on a non-empty string. -/
theorem parseIntJS_ne_empty (s : String) (t : Int) (h : parseIntJS s = some t) : s ≠ "" := by
  intro he
  rw [he, show parseIntJS "" = none from rfl] at h
  exact Option.noConfusion h

/-- C3: For every secret, timestamp and raw body, a request carrying the
signature produced by signing that body (HMAC-SHA256 over
`"v0:<timestamp>:<rawBody>"`, hex-encoded, `"v0="`-prefixed) together with a
fresh timestamp is accepted by the verifier — both by `index.ts`'s
`authorize` (two-sided freshness, `nowMs` = `Date.now()`) and by
`part_001`'s `authorize` (one-sided freshness, `nowSec` = floored seconds,
configured non-empty secret). -/
theorem c3_verify_sign_roundtrip (secret rawBody ts : String) (t nowMs nowSec : Int)
    (hs : secret ≠ "") (hp : parseIntJS ts = some t)
    (hfresh1 : |nowMs - 1000 * t| ≤ 300000) (hfresh2 : ¬t < nowSec - 300) :
    authorizeIndex secret rawBody (some (signSlack secret ts rawBody)) (some ts) nowMs
      = .ok () ∧
    authorizePart1 (some secret) rawBody (some (signSlack secret ts rawBody)) (some ts) nowSec
      = .ok () := by
  have hts : ts ≠ "" := parseIntJS_ne_empty ts t hp
  have hsig : signSlack secret ts rawBody ≠ "" := by
    intro h0
    have hl := signSlack_length secret ts rawBody
    rw [h0] at hl
    exact absurd hl (by decide)
  have h1 : jsFalsy (some (signSlack secret ts rawBody)) = false := by simp [jsFalsy, hsig]
  have h2 : jsFalsy (some ts) = false := by simp [jsFalsy, hts]
  have h3 : jsFalsy (some secret) = false := by simp [jsFalsy, hs]
  have h4 : staleIndex (some ts) nowMs = false := by
    simp only [staleIndex, jsStr, hp, decide_eq_false_iff_not]
    omega
  have h5 : stalePart1 (some ts) nowSec = false := by
    simp only [stalePart1, jsStr, hp, decide_eq_false_iff_not]
    omega
  constructor
  · simp [authorizeIndex, h1, h2, h4, jsStr]
  · simp [authorizePart1, h1, h2, h3, h5, jsStr]

/-- Witness for C3 at a concrete triple. -/
theorem c3_verify_sign_roundtrip_witness :
    authorizeIndex "s" "b" (some (signSlack "s" "100" "b")) (some "100") 100000 = .ok () ∧
    authorizePart1 (some "s") "b" (some (signSlack "s" "100" "b")) (some "100") 100 = .ok () :=
  c3_verify_sign_roundtrip "s" "b" "100" 100 100000 100
    (by decide) (by decide) (by decide) (by decide)

set_option maxHeartbeats 4000000 in
/-- C1 (the code bug): `part_002`'s `authorize` (the cited lines 31–42)
inverts the comparison.  At a concrete input it (1) accepts the signature
`"bad"`, which differs from the correct digest, (2) accepts an absent
signature header, (3) rejects precisely the correct signature, and (4) the
`part_002` handler then proceeds to forward (dispatch) the request that
carried the wrong signature.  (`index.ts`'s `authorize` behaves as the
claim states; see `c3_verify_sign_roundtrip` and `authorizeIndex_ok_sig`.) -/
theorem c1_part2_inverted :
    authorizePart2 "s" "body" (some "bad") (some "100") = .ok () ∧
    authorizePart2 "s" "body" none (some "100") = .ok () ∧
    authorizePart2 "s" "body" (some (signSlack "s" "100" "body")) (some "100")
      = .error "The Slack App installation token doesn't match the one set on saga's record" ∧
    (part2Handler "s" "o" "r"
        (some (b64Encode (utf8Encode "command=c&user_name=u&text=deploy&response_url=r")))
        (some "bad") (some "100") (.ok ()) (.ok ()) (.ok ())).dispatches
      = [⟨"o", "r", "saga-deploy", ⟨some "c", some "u", ["deploy"]⟩⟩] := by
  refine ⟨by decide, by decide, by simp [authorizePart2, jsStr], by decide⟩

set_option maxHeartbeats 4000000 in
/-- C2, counterexample to the claim as stated: at a concrete request whose
signature `"bad"` is invalid, the `index.ts` acknowledger (cited lines
165–175) answers `500` — not `401` — because its `catch` does not
distinguish authentication failures; no worker invocation (hence no
dispatch) is attempted. -/
theorem c2_counterexample :
    (some "bad" : Option String) ≠ some (signSlack "s" "100" "AA") ∧
    acknowledgerIndex "s" (some "AA") (some "bad") (some "100") 100000 (.ok ()) = ⟨500, []⟩ ∧
    (500 : Nat) ≠ 401 := by
  refine ⟨by decide, by decide, by decide⟩

theorem part1Handler_auth_error (secret : Option String) (owner repo raw : String)
    (sig ts : Option String) (nowSec : Int) (o1 : Except Unit Unit) (m : String)
    (hE : authorizePart1 secret raw sig ts nowSec = .error m) :
    part1Handler secret owner repo (some raw) sig ts nowSec o1 = ⟨401, [], []⟩ := by
  simp only [part1Handler, jsStr, hE]

theorem ackIndex_auth_error (secret raw : String)
    (sig ts : Option String) (nowMs : Int) (o2 : Except Unit Unit) (m : String)
    (hraw : raw ≠ "")
    (hE : authorizeIndex secret raw sig ts nowMs = .error m) :
    acknowledgerIndex secret (some raw) sig ts nowMs o2 = ⟨500, []⟩ := by
  simp only [acknowledgerIndex, jsStr, hE, jsFalsy]
  rw [if_neg (by simpa using hraw)]

/-- C2 as amended: for every request whose signature header differs from the
correct signature, no downstream dispatch is attempted by either variant;
`part_001`'s handler answers `401`, while `index.ts`'s acknowledger answers
`500` (its catch-all does not map authentication failures to `401`). -/
theorem c2_amended (secret owner repo raw : String) (sig ts : Option String)
    (nowSec nowMs : Int) (o1 o2 : Except Unit Unit)
    (hraw : raw ≠ "")
    (hsig : sig ≠ some (signSlack secret (jsStr ts) raw)) :
    (part1Handler (some secret) owner repo (some raw) sig ts nowSec o1).statusCode = 401 ∧
    (part1Handler (some secret) owner repo (some raw) sig ts nowSec o1).dispatches = [] ∧
    (acknowledgerIndex secret (some raw) sig ts nowMs o2).statusCode = 500 ∧
    (acknowledgerIndex secret (some raw) sig ts nowMs o2).workerInvocations = [] := by
  rcases hE1 : authorizePart1 (some secret) raw sig ts nowSec with m1 | u1
  case ok =>
    cases u1
    exact absurd (authorizePart1_ok_sig _ _ _ _ _ hE1) hsig
  rcases hE2 : authorizeIndex secret raw sig ts nowMs with m2 | u2
  case ok =>
    cases u2
    exact absurd (authorizeIndex_ok_sig _ _ _ _ _ hE2) hsig
  rw [part1Handler_auth_error _ _ _ _ _ _ _ _ _ hE1, ackIndex_auth_error _ _ _ _ _ _ _ hraw hE2]
  exact ⟨rfl, rfl, rfl, rfl⟩

/-- Witness for the amended C2 at a concrete invalid-signature request. -/
theorem c2_amended_witness :
    (part1Handler (some "s") "o" "r" (some "AA") (some "bad") (some "100") 100 (.ok ())).statusCode
      = 401 ∧
    (part1Handler (some "s") "o" "r" (some "AA") (some "bad") (some "100") 100 (.ok ())).dispatches
      = [] ∧
    (acknowledgerIndex "s" (some "AA") (some "bad") (some "100") 100000 (.ok ())).statusCode
      = 500 ∧
    (acknowledgerIndex "s" (some "AA") (some "bad") (some "100") 100000 (.ok ())).workerInvocations
      = [] :=
  c2_amended "s" "o" "r" "AA" (some "bad") (some "100") 100 100000 (.ok ()) (.ok ())
    (by decide) (by decide)

/-! ## The worker contracts (C4–C7, C9) -/

/-- The success text of the `index.ts` worker never coincides with its
failure text (they start with different characters). -/
theorem indexSuccessText_ne_fail (e : Option String) : indexSuccessText e ≠ indexFailText := by
  intro h
  have hs : (indexSuccessText e).data.head? = some '✅' := by
    simp only [indexSuccessText, String.data_append, List.head?_append]
    rw [show ("✅ Successfully triggered GitHub Action: `" : String).data.head? = some '✅' from rfl]
    rfl
  rw [h, show (indexFailText).data.head? = some '❌' from rfl] at hs
  exact absurd hs (by decide)

/-- C4, counterexample to the claim as stated: the dispatch succeeds, but
the awaited success send (`index.ts` line 93, inside the `try`) rejects —
the `catch` then delivers the generic failure text.  So a failure
notification is sent after a successful dispatch, and no confirmation is
delivered, contradicting "on dispatch success a confirmation message naming
the event type, and no failure notification". -/
theorem c4_counterexample :
    (workerIndex "o" "r" ⟨some "/saga", some "u", some "tag v1", some "url"⟩
        (.ok ()) (.error ()) (.ok ())).dispatches.length = 1 ∧
    (workerIndex "o" "r" ⟨some "/saga", some "u", some "tag v1", some "url"⟩
        (.ok ()) (.error ()) (.ok ())).messages.map Notification.text = [indexFailText] ∧
    indexFailText ≠ indexSuccessText (some "tag") := by
  exact ⟨by decide, by decide, (indexSuccessText_ne_fail (some "tag")).symm⟩

/-- C4 as amended: the `index.ts` worker delivers at most one primary
follow-up message, always to the `response_url`.  When the notification
sends succeed it is exactly one: on dispatch success the confirmation
naming the event type (never the failure text), on dispatch failure the
generic failure text.  But when the awaited success send itself fails, the
`catch` delivers the generic failure text even though the dispatch
succeeded; and when the `catch`'s send also fails, zero messages are
delivered and the fault escapes the background phase — one or zero
messages, never more, never partially. -/
theorem c4_amended (owner repo : String) (body : SlackCmd) (o1 o2 o3 : Except Unit Unit) :
    (workerIndex owner repo body o1 o2 o3).messages.length ≤ 1 ∧
    (∀ m ∈ (workerIndex owner repo body o1 o2 o3).messages, m.url = body.response_url) ∧
    (o1.isOk = true → o2.isOk = true →
      (workerIndex owner repo body o1 o2 o3).messages
        = [⟨body.response_url, none, indexSuccessText (jsSplitArgs body.text).head?⟩] ∧
      ∀ m ∈ (workerIndex owner repo body o1 o2 o3).messages, m.text ≠ indexFailText) ∧
    ((o1.isOk = false ∨ o2.isOk = false) → o3.isOk = true →
      (workerIndex owner repo body o1 o2 o3).messages
        = [⟨body.response_url, none, indexFailText⟩]) ∧
    ((o1.isOk = false ∨ o2.isOk = false) → o3.isOk = false →
      (workerIndex owner repo body o1 o2 o3).messages = [] ∧
      (workerIndex owner repo body o1 o2 o3).crashed = true) := by
  rcases o1 with e1 | u1 <;> rcases o2 with e2 | u2 <;> rcases o3 with e3 | u3 <;>
    refine ⟨by simp [workerIndex], by simp [workerIndex], ?_, ?_, ?_⟩ <;>
    simp [workerIndex, Except.isOk, Except.toBool] <;>
    exact fun hm => indexSuccessText_ne_fail _ hm

/-- Witness for the amended C4 at a concrete command with every outcome
successful. -/
theorem c4_amended_witness :
    (workerIndex "o" "r" ⟨some "/saga", some "u", some "tag v1.2.3", some "url"⟩
        (.ok ()) (.ok ()) (.ok ())).messages.length ≤ 1 ∧
    (workerIndex "o" "r" ⟨some "/saga", some "u", some "tag v1.2.3", some "url"⟩
        (.ok ()) (.ok ()) (.ok ())).messages
      = [⟨some "url", none, indexSuccessText (some "tag")⟩] :=
  ⟨(c4_amended "o" "r" ⟨some "/saga", some "u", some "tag v1.2.3", some "url"⟩
      (.ok ()) (.ok ()) (.ok ())).1,
   by
    have h := (c4_amended "o" "r"
      ⟨some "/saga", some "u", some "tag v1.2.3", some "url"⟩
      (.ok ()) (.ok ()) (.ok ())).2.2.1 rfl rfl
    rw [show (jsSplitArgs (some "tag v1.2.3")).head? = some "tag" from by decide] at h
    exact h.1⟩

/-- C5, counterexample to the claim as stated: splitting the EMPTY (present
but `""`) command-text field yields `[""]` — a one-element sequence holding
the empty token — not the empty sequence (JavaScript `''.split(' ')` is
`['']`, and `[''] || []` keeps `['']`). -/
theorem c5_counterexample :
    jsSplitArgs (some "") = [""] ∧ ([""] : List String) ≠ [] := by
  exact ⟨by decide, by decide⟩

/-- C5 as amended: in the variants with the `|| []` fallback (`index.ts`,
`part_001`) an absent text yields the empty argument sequence, while in
`part_002` — which has no fallback — an absent text makes `args[0]` throw,
caught by the `catch` as a failure: no dispatch, only the failure message.
An empty-string text yields `[""]` (one empty token, whose falsy head still
fails the guarded variant's event-type check before dispatching).
`"deploy staging fast"` splits into `["deploy","staging","fast"]` with
first token `"deploy"`, giving dispatch event type `"saga-deploy"`. -/
theorem c5_amended :
    jsSplitArgs none = [] ∧
    jsSplitArgs (some "") = [""] ∧
    jsSplitArgs (some "deploy staging fast") = ["deploy", "staging", "fast"] ∧
    (workerIndex "o" "r" ⟨some "/saga", some "u", some "deploy staging fast", some "url"⟩
        (.ok ()) (.ok ()) (.ok ())).dispatches
      = [⟨"o", "r", "saga-deploy", ⟨some "/saga", some "u", ["deploy", "staging", "fast"]⟩⟩] ∧
    jsFalsy (jsSplitArgs (some "")).head? = true ∧
    (runBackgroundTask1 "o" "r" ⟨some "/saga", some "u", some "", some "url"⟩
        (.ok ())).dispatches = [] ∧
    (part2Background "o" "r" ⟨some "/saga", some "u", none, some "url"⟩
        (.ok ()) (.ok ()) (.ok ())).dispatches = [] ∧
    (part2Background "o" "r" ⟨some "/saga", some "u", none, some "url"⟩
        (.ok ()) (.ok ()) (.ok ())).messages = [⟨some "url", none, p2FailText⟩] := by
  refine ⟨by decide, by decide, by decide, by decide, by decide, by decide, by decide, by decide⟩

/-- C6 (the code bug): at a command payload with an absent text (empty
derived argument sequence, undefined event type), the `index.ts` worker
(cited lines 82–91) performs NO validation and still dispatches, with event
type `"saga-undefined"`; `part_001`'s `runBackgroundTask` (the behaviour
the claim describes) refuses the same input with the usage message and no
dispatch. -/
theorem c6_index_worker_missing_validation :
    (workerIndex "o" "r" ⟨some "/saga", some "u", none, some "url"⟩
        (.ok ()) (.ok ()) (.ok ())).dispatches
      = [⟨"o", "r", "saga-undefined", ⟨some "/saga", some "u", []⟩⟩] ∧
    (runBackgroundTask1 "o" "r" ⟨some "/saga", some "u", none, some "url"⟩ (.ok ())).dispatches
      = [] ∧
    (runBackgroundTask1 "o" "r" ⟨some "/saga", some "u", none, some "url"⟩ (.ok ())).messages
      = [⟨some "url", none, part1UsageText⟩] := by
  refine ⟨by decide, by decide, by decide⟩

/-- `splitChar` never returns the empty list of pieces. -/
theorem splitChar_ne_nil (sep : Char) (l : List Char) : splitChar sep l ≠ [] := by
  cases l with
  | nil => simp [splitChar]
  | cons x xs =>
    cases h : splitChar sep xs with
    | nil => simp [splitChar, h]
    | cons cur rest => simp only [splitChar, h]; split <;> simp

/-- `jsSplit` never returns the empty list. -/
theorem jsSplit_ne_nil (sep : Char) (s : String) : jsSplit sep s ≠ [] := by
  simp only [jsSplit, ne_eq, List.map_eq_nil_iff]
  exact splitChar_ne_nil sep s.data

/-- Every dispatch the `part_002` handler sends has event type
`"saga-" ++ first argument token` and a `client_payload` holding exactly the
`command` field, the `user_name` field and the full argument sequence, at
the configured owner/repository coordinates (a dispatch needs a present
text, so the sequence is non-empty). -/
theorem part2_dispatch_shape (owner repo : String) (body : SlackCmd)
    (o1 o2 o3 : Except Unit Unit) (d : DispatchRequest)
    (hd : d ∈ (part2Background owner repo body o1 o2 o3).dispatches) :
    body.text ≠ none ∧
    jsSplitArgs body.text ≠ [] ∧
    d.owner = owner ∧ d.repo = repo ∧
    d.event_type = "saga-" ++ (jsSplitArgs body.text).headD "" ∧
    d.client_payload = ⟨body.command, body.user_name, jsSplitArgs body.text⟩ := by
  cases ht : body.text with
  | none => simp [part2Background, ht] at hd
  | some t =>
    have hnn := jsSplit_ne_nil ' ' t
    rcases hs : jsSplit ' ' t with _ | ⟨first, rest⟩
    · exact absurd hs hnn
    · rcases o1 with e1 | u1 <;> rcases o2 with e2 | u2 <;> rcases o3 with e3 | u3 <;>
        simp [part2Background, ht, hs] at hd <;>
        simp [hd, ht, jsSplitArgs, hs, jsStr]

/-- Every dispatch the `index.ts` worker sends carries the full argument
sequence in its `client_payload`; its event type is `"saga-" ++ first
token` only when the sequence is non-empty — with an empty sequence it is
the literal `"saga-undefined"` (the interpolated `undefined`). -/
theorem workerIndex_dispatch_shape (owner repo : String) (body : SlackCmd)
    (oD oS oF : Except Unit Unit) (d : DispatchRequest)
    (hd : d ∈ (workerIndex owner repo body oD oS oF).dispatches) :
    d.owner = owner ∧ d.repo = repo ∧
    d.client_payload = ⟨body.command, body.user_name, jsSplitArgs body.text⟩ ∧
    (jsSplitArgs body.text ≠ [] →
      d.event_type = "saga-" ++ (jsSplitArgs body.text).headD "") ∧
    (jsSplitArgs body.text = [] → d.event_type = "saga-undefined") := by
  rcases oD with e1 | u1 <;> rcases oS with e2 | u2 <;> rcases oF with e3 | u3 <;>
    simp only [workerIndex, List.mem_singleton] at hd <;>
    (rw [hd]; rcases hs : jsSplitArgs body.text with _ | ⟨first, rest⟩ <;> simp [jsStr, hs])

/-- C7, counterexample to the claim as stated: the `index.ts` worker (cited
lines 86–91), reached with an absent text, sends a dispatch whose argument
sequence is empty — there is no first argument token at all — and whose
event type is the literal `"saga-undefined"`, which is not `"saga-"`
followed by a token of the (empty) sequence. -/
theorem c7_counterexample :
    (workerIndex "o" "r" ⟨some "/saga", some "u", none, some "url"⟩
        (.ok ()) (.ok ()) (.ok ())).dispatches
      = [⟨"o", "r", "saga-undefined", ⟨some "/saga", some "u", []⟩⟩] ∧
    jsSplitArgs (⟨some "/saga", some "u", none, some "url"⟩ : SlackCmd).text = [] ∧
    "saga-undefined" ≠ "saga-" ++ ([] : List String).headD "" := by
  refine ⟨by decide, by decide, by decide⟩

/-- C7 as amended: every dispatch sent by the `part_002` handler has event
type `"saga-" ++ first argument token` and `client_payload` exactly
`{command, user_name, args}` at the configured coordinates (its argument
sequence is always non-empty); the `index.ts` worker sends the same shape
whenever its derived sequence is non-empty, but with an empty sequence
(the defect of C6) it dispatches the literal event type `"saga-undefined"`
— still with `client_payload = {command, user_name, args: []}`. -/
theorem c7_amended (owner repo : String) (body body2 : SlackCmd)
    (o1 o2 o3 oD oS oF : Except Unit Unit) (d d2 : DispatchRequest)
    (hd : d ∈ (part2Background owner repo body o1 o2 o3).dispatches)
    (hd2 : d2 ∈ (workerIndex owner repo body2 oD oS oF).dispatches) :
    (body.text ≠ none ∧
     jsSplitArgs body.text ≠ [] ∧
     d.owner = owner ∧ d.repo = repo ∧
     d.event_type = "saga-" ++ (jsSplitArgs body.text).headD "" ∧
     d.client_payload = ⟨body.command, body.user_name, jsSplitArgs body.text⟩) ∧
    (d2.owner = owner ∧ d2.repo = repo ∧
     d2.client_payload = ⟨body2.command, body2.user_name, jsSplitArgs body2.text⟩ ∧
     (jsSplitArgs body2.text ≠ [] →
       d2.event_type = "saga-" ++ (jsSplitArgs body2.text).headD "") ∧
     (jsSplitArgs body2.text = [] → d2.event_type = "saga-undefined")) :=
  ⟨part2_dispatch_shape owner repo body o1 o2 o3 d hd,
   workerIndex_dispatch_shape owner repo body2 oD oS oF d2 hd2⟩

/-- Witness for the amended C7 at a concrete successful request, for both
workers. -/
theorem c7_amended_witness :
    ((⟨some "/saga", some "u", some "tag v1", some "url"⟩ : SlackCmd).text ≠ none ∧
     jsSplitArgs (⟨some "/saga", some "u", some "tag v1", some "url"⟩ : SlackCmd).text ≠ [] ∧
     (⟨"o", "r", "saga-tag", ⟨some "/saga", some "u", ["tag", "v1"]⟩⟩ : DispatchRequest).owner
       = "o" ∧
     (⟨"o", "r", "saga-tag", ⟨some "/saga", some "u", ["tag", "v1"]⟩⟩ : DispatchRequest).repo
       = "r" ∧
     (⟨"o", "r", "saga-tag",
         ⟨some "/saga", some "u", ["tag", "v1"]⟩⟩ : DispatchRequest).event_type
       = "saga-" ++ (jsSplitArgs (⟨some "/saga", some "u", some "tag v1", some "url"⟩ :
           SlackCmd).text).headD "" ∧
     (⟨"o", "r", "saga-tag",
         ⟨some "/saga", some "u", ["tag", "v1"]⟩⟩ : DispatchRequest).client_payload
       = ⟨(⟨some "/saga", some "u", some "tag v1", some "url"⟩ : SlackCmd).command,
          (⟨some "/saga", some "u", some "tag v1", some "url"⟩ : SlackCmd).user_name,
          jsSplitArgs (⟨some "/saga", some "u", some "tag v1", some "url"⟩ : SlackCmd).text⟩) ∧
    ((⟨"o", "r", "saga-tag", ⟨some "/saga", some "u", ["tag", "v1"]⟩⟩ : DispatchRequest).owner
       = "o" ∧
     (⟨"o", "r", "saga-tag", ⟨some "/saga", some "u", ["tag", "v1"]⟩⟩ : DispatchRequest).repo
       = "r" ∧
     (⟨"o", "r", "saga-tag",
         ⟨some "/saga", some "u", ["tag", "v1"]⟩⟩ : DispatchRequest).client_payload
       = ⟨(⟨some "/saga", some "u", some "tag v1", some "url"⟩ : SlackCmd).command,
          (⟨some "/saga", some "u", some "tag v1", some "url"⟩ : SlackCmd).user_name,
          jsSplitArgs (⟨some "/saga", some "u", some "tag v1", some "url"⟩ : SlackCmd).text⟩ ∧
     (jsSplitArgs (⟨some "/saga", some "u", some "tag v1", some "url"⟩ : SlackCmd).text ≠ [] →
       (⟨"o", "r", "saga-tag",
           ⟨some "/saga", some "u", ["tag", "v1"]⟩⟩ : DispatchRequest).event_type
         = "saga-" ++ (jsSplitArgs (⟨some "/saga", some "u", some "tag v1", some "url"⟩ :
             SlackCmd).text).headD "") ∧
     (jsSplitArgs (⟨some "/saga", some "u", some "tag v1", some "url"⟩ : SlackCmd).text = [] →
       (⟨"o", "r", "saga-tag",
           ⟨some "/saga", some "u", ["tag", "v1"]⟩⟩ : DispatchRequest).event_type
         = "saga-undefined")) :=
  c7_amended "o" "r" ⟨some "/saga", some "u", some "tag v1", some "url"⟩
    ⟨some "/saga", some "u", some "tag v1", some "url"⟩
    (.ok ()) (.ok ()) (.ok ()) (.ok ()) (.ok ()) (.ok ())
    ⟨"o", "r", "saga-tag", ⟨some "/saga", some "u", ["tag", "v1"]⟩⟩
    ⟨"o", "r", "saga-tag", ⟨some "/saga", some "u", ["tag", "v1"]⟩⟩
    (by decide) (by decide)

/-- C9, counterexample to the claim as stated: when the secondary broadcast
notification fails (dispatch and primary notification both succeeded), the
`part_002` handler's single `catch` sends the generic failure message as
well — the claim says no failure message is triggered by the secondary
failure.  With a succeeding secondary notification no failure message is
sent. -/
theorem c9_counterexample :
    (part2Background "o" "r" ⟨some "/saga", some "u", some "tag v1", some "url"⟩
        (.ok ()) (.ok ()) (.error ())).messages.map Notification.text
      = ["On it!", p2FailText] ∧
    (part2Background "o" "r" ⟨some "/saga", some "u", some "tag v1", some "url"⟩
        (.ok ()) (.ok ()) (.ok ())).messages.map Notification.text
      = ["On it!", "u tagged a new release"] := by
  refine ⟨by decide, by decide⟩

/-- C9 as amended: a failure of the secondary broadcast notification leaves
the already-sent primary success message in place and does not crash the
handler (the `try`/`catch` absorbs it; the handler still answers `200`),
but it DOES additionally trigger the generic failure message, because the
secondary notification is awaited inside the same `try` as the dispatch. -/
theorem c9_amended (owner repo secret raw : String) (ts : Option String)
    (body : SlackCmd) (t : String) (ht : body.text = some t) :
    (part2Background owner repo body (.ok ()) (.ok ()) (.error ())).messages.map Notification.text
      = ["On it!", p2FailText] ∧
    (part2Handler secret owner repo (some raw) none ts (.ok ()) (.ok ()) (.error ())).crashed
      = false ∧
    (part2Handler secret owner repo (some raw) none ts (.ok ()) (.ok ()) (.error ())).statusCode
      = some 200 := by
  refine ⟨?_, ?_, ?_⟩
  · simp [part2Background, ht]
  · simp [part2Handler, authorizePart2]
  · simp [part2Handler, authorizePart2]

/-- Witness for the amended C9 at a concrete command. -/
theorem c9_amended_witness :
    (part2Background "o" "r" ⟨some "/saga", some "u", some "tag v1", some "url"⟩
        (.ok ()) (.ok ()) (.error ())).messages.map Notification.text
      = ["On it!", p2FailText] ∧
    (part2Handler "s" "o" "r" (some "AA") none (some "100")
        (.ok ()) (.ok ()) (.error ())).crashed = false ∧
    (part2Handler "s" "o" "r" (some "AA") none (some "100")
        (.ok ()) (.ok ()) (.error ())).statusCode = some 200 :=
  c9_amended "o" "r" "s" "AA" (some "100")
    ⟨some "/saga", some "u", some "tag v1", some "url"⟩ "tag v1" rfl

/-- C10: the acknowledger's decoding pipeline (`decodeBody`) is a total
function — base64 decoding skips invalid characters and query-string parsing
always yields a flat mapping, neither can fail — so the handler never
answers `400` for a present non-empty body: its status is `400` exactly when
the body is falsy (absent or empty). -/
theorem c10_only_400_for_missing_body (secret : String) (raw sig ts : Option String)
    (nowMs : Int) (o : Except Unit Unit) :
    (acknowledgerIndex secret raw sig ts nowMs o).statusCode = 400 ↔ jsFalsy raw = true := by
  cases hf : jsFalsy raw
  · rcases hE : authorizeIndex secret (jsStr raw) sig ts nowMs with m | u <;>
      rcases o with e | u2 <;> simp [acknowledgerIndex, hf, hE]
  · simp [acknowledgerIndex, hf]


/-! ## The decode/encode round trip (C8) -/

theorem char_toNat_valid (c : Char) :
    c.toNat < 55296 ∨ (57343 < c.toNat ∧ c.toNat < 1114112) := c.valid

theorem utf8Char_mem_lt (n : Nat) (hn : n < 1114112) : ∀ b ∈ utf8Char n, b < 256 := by
  intro b hb
  by_cases h1 : n < 128
  · simp [utf8Char, h1] at hb; omega
  · by_cases h2 : n < 2048
    · simp [utf8Char, h1, h2] at hb; rcases hb with hb | hb <;> omega
    · by_cases h3 : n < 65536
      · simp [utf8Char, h1, h2, h3] at hb; rcases hb with hb | hb | hb <;> omega
      · simp [utf8Char, h1, h2, h3] at hb; rcases hb with hb | hb | hb | hb <;> omega

theorem utf8Chars_mem_lt (l : List Char) : ∀ b ∈ utf8Chars l, b < 256 := by
  induction l with
  | nil => simp [utf8Chars]
  | cons c r ih =>
    intro b hb
    simp only [utf8Chars, List.mem_append] at hb
    rcases hb with hb | hb
    · have hv := char_toNat_valid c
      exact utf8Char_mem_lt c.toNat (by omega) b hb
    · exact ih b hb

theorem b64Val_b64Char : ∀ v, v < 64 → b64Val (b64Char v) = some v := by decide

theorem b64Val_pad : b64Val '=' = none := by decide

theorem b64DecodeVals_encode (l : List Nat) (hl : ∀ b ∈ l, b < 256) :
    b64DecodeVals ((b64EncodeBytes l).filterMap b64Val) = l := by
  induction l using b64EncodeBytes.induct with
  | case1 b1 b2 b3 rest ih =>
    have h1 : b1 < 256 := hl b1 (by simp)
    have h2 : b2 < 256 := hl b2 (by simp)
    have h3 : b3 < 256 := hl b3 (by simp)
    simp only [b64EncodeBytes, List.filterMap_cons,
      b64Val_b64Char (b1 / 4) (by omega),
      b64Val_b64Char (b1 % 4 * 16 + b2 / 16) (by omega),
      b64Val_b64Char (b2 % 16 * 4 + b3 / 64) (by omega),
      b64Val_b64Char (b3 % 64) (by omega),
      b64DecodeVals, List.cons.injEq]
    refine ⟨by omega, by omega, by omega, ih fun b hb => hl b (by simp [hb])⟩
  | case2 b1 b2 =>
    have h1 : b1 < 256 := hl b1 (by simp)
    have h2 : b2 < 256 := hl b2 (by simp)
    simp only [b64EncodeBytes, List.filterMap_cons,
      b64Val_b64Char (b1 / 4) (by omega),
      b64Val_b64Char (b1 % 4 * 16 + b2 / 16) (by omega),
      b64Val_b64Char (b2 % 16 * 4) (by omega),
      b64Val_pad, List.filterMap_nil, b64DecodeVals, List.cons.injEq]
    exact ⟨by omega, by omega, trivial⟩
  | case3 b1 =>
    have h1 : b1 < 256 := hl b1 (by simp)
    simp only [b64EncodeBytes, List.filterMap_cons,
      b64Val_b64Char (b1 / 4) (by omega),
      b64Val_b64Char (b1 % 4 * 16) (by omega),
      b64Val_pad, List.filterMap_nil, b64DecodeVals, List.cons.injEq]
    exact ⟨by omega, trivial⟩
  | case4 => rfl

theorem b64Decode_encode (l : List Nat) (hl : ∀ b ∈ l, b < 256) :
    b64Decode (b64Encode l) = l := by
  simpa [b64Decode, b64Encode] using b64DecodeVals_encode l hl

theorem utf8Lead_ascii (b : Nat) (h : b < 128) : utf8Lead b = .inl (Char.ofNat b) := by
  simp [utf8Lead, h]

theorem utf8Lead_two (b : Nat) (h1 : 194 ≤ b) (h2 : b < 224) :
    utf8Lead b = .inr (1, b - 192, 128) := by
  unfold utf8Lead
  rw [if_neg (by omega), if_neg (by omega), if_pos (by omega)]

theorem utf8Lead_three (b : Nat) (h1 : 224 ≤ b) (h2 : b < 240) :
    utf8Lead b = .inr (2, b - 224, 2048) := by
  unfold utf8Lead
  rw [if_neg (by omega), if_neg (by omega), if_neg (by omega), if_pos (by omega)]

theorem utf8Lead_four (b : Nat) (h1 : 240 ≤ b) (h2 : b < 245) :
    utf8Lead b = .inr (3, b - 240, 65536) := by
  unfold utf8Lead
  rw [if_neg (by omega), if_neg (by omega), if_neg (by omega), if_neg (by omega),
    if_pos (by omega)]

theorem utf8Finish_valid (mn acc : Nat) (h1 : mn ≤ acc)
    (h2 : ¬(55296 ≤ acc ∧ acc ≤ 57343)) (h3 : acc < 1114112) :
    utf8Finish mn acc = Char.ofNat acc := by
  unfold utf8Finish
  rw [if_neg]
  simp only [Bool.or_eq_true, decide_eq_true_eq, Bool.and_eq_true, not_or]
  omega

theorem isCont_true (b : Nat) (h1 : 128 ≤ b) (h2 : b < 192) : isCont b = true := by
  simp [isCont]; omega

theorem utf8Run_encChar (c : Char) (rest : List Nat) :
    utf8Run none (utf8Char c.toNat ++ rest) = c :: utf8Run none rest := by
  have hv := char_toNat_valid c
  have hofn : Char.ofNat c.toNat = c := Char.ofNat_toNat c
  by_cases h1 : c.toNat < 128
  · rw [utf8Char, if_pos h1]
    simp only [List.cons_append, List.nil_append, utf8Run, utf8Lead_ascii c.toNat h1, hofn]
    rfl
  · by_cases h2 : c.toNat < 2048
    · rw [utf8Char, if_neg h1, if_pos h2]
      simp only [List.cons_append, List.nil_append, utf8Run,
        utf8Lead_two (192 + c.toNat / 64) (by omega) (by omega),
        isCont_true (128 + c.toNat % 64) (by omega) (by omega), if_pos rfl, if_true]
      rw [show 192 + c.toNat / 64 - 192 = c.toNat / 64 from by omega]
      rw [show c.toNat / 64 * 64 + (128 + c.toNat % 64 - 128) = c.toNat from by omega]
      rw [utf8Finish_valid 128 c.toNat (by omega) (by omega) (by omega), hofn]
      rfl
    · by_cases h3 : c.toNat < 65536
      · rw [utf8Char, if_neg h1, if_neg h2, if_pos h3]
        simp only [List.cons_append, List.nil_append, utf8Run,
          utf8Lead_three (224 + c.toNat / 4096) (by omega) (by omega),
          isCont_true (128 + c.toNat / 64 % 64) (by omega) (by omega),
          isCont_true (128 + c.toNat % 64) (by omega) (by omega), if_true]
        rw [show 224 + c.toNat / 4096 - 224 = c.toNat / 4096 from by omega]
        simp only [show (2 : Nat) ≠ 1 from by omega, if_false, reduceIte]
        rw [show c.toNat / 4096 * 64 + (128 + c.toNat / 64 % 64 - 128)
            = c.toNat / 64 from by omega]
        rw [show c.toNat / 64 * 64 + (128 + c.toNat % 64 - 128) = c.toNat from by omega]
        rw [utf8Finish_valid 2048 c.toNat (by omega) (by omega) (by omega), hofn]
        rfl
      · have h4 : c.toNat < 1114112 := by omega
        rw [utf8Char, if_neg h1, if_neg h2, if_neg h3]
        simp only [List.cons_append, List.nil_append, utf8Run,
          utf8Lead_four (240 + c.toNat / 262144) (by omega) (by omega),
          isCont_true (128 + c.toNat / 4096 % 64) (by omega) (by omega),
          isCont_true (128 + c.toNat / 64 % 64) (by omega) (by omega),
          isCont_true (128 + c.toNat % 64) (by omega) (by omega), if_true]
        rw [show 240 + c.toNat / 262144 - 240 = c.toNat / 262144 from by omega]
        simp only [show (3 : Nat) ≠ 1 from by omega, show (2 : Nat) ≠ 1 from by omega,
          if_false, reduceIte]
        rw [show c.toNat / 262144 * 64 + (128 + c.toNat / 4096 % 64 - 128)
            = c.toNat / 4096 from by omega]
        rw [show c.toNat / 4096 * 64 + (128 + c.toNat / 64 % 64 - 128)
            = c.toNat / 64 from by omega]
        rw [show c.toNat / 64 * 64 + (128 + c.toNat % 64 - 128) = c.toNat from by omega]
        rw [utf8Finish_valid 65536 c.toNat (by omega) (by omega) (by omega), hofn]
        rfl

theorem utf8Run_encode (l : List Char) : utf8Run none (utf8Chars l) = l := by
  induction l with
  | nil => rfl
  | cons c r ih => rw [utf8Chars, utf8Run_encChar, ih]

theorem utf8DecodeStr_encode (s : String) : utf8DecodeStr (utf8Encode s) = s := by
  rw [utf8DecodeStr, utf8DecodeList, utf8Encode, utf8Run_encode]

set_option maxRecDepth 4000 in
theorem unreserved_char_facts : ∀ b, b < 256 → unreservedByte b = true →
    ((Char.ofNat b).toNat = b ∧ Char.ofNat b ≠ '%' ∧ Char.ofNat b ≠ '+' ∧
      Char.ofNat b ≠ '&' ∧ Char.ofNat b ≠ '=' ∧ b < 128) := by decide

theorem hexU_facts : ∀ v, v < 16 →
    (hexVal (hexDigitU v) = some v ∧ hexDigitU v ≠ '%' ∧ hexDigitU v ≠ '+' ∧
      hexDigitU v ≠ '&' ∧ hexDigitU v ≠ '=') := by decide

theorem unescRun_escBytes (bl : List Nat) (hb : ∀ b ∈ bl, b < 256) :
    unescRun none (escBytes bl) = bl := by
  induction bl with
  | nil => rfl
  | cons b r ih =>
    have hblt : b < 256 := hb b (by simp)
    have ihr := ih fun x hx => hb x (by simp [hx])
    by_cases hu : unreservedByte b = true
    · obtain ⟨ht, hp, hpl, _, _, h128⟩ := unreserved_char_facts b hblt hu
      rw [escBytes, if_pos hu]
      simp only [List.cons_append, List.nil_append, unescRun]
      rw [if_neg hp, if_neg hpl, ht, utf8Char, if_pos h128]
      exact congrArg (b :: ·) ihr
    · obtain ⟨hh1, hh2, hh3, _, _⟩ := hexU_facts (b / 16 % 16) (by omega)
      obtain ⟨hl1, hl2, hl3, _, _⟩ := hexU_facts (b % 16) (by omega)
      rw [escBytes, if_neg hu]
      simp only [List.cons_append, List.nil_append, unescRun, hh1, hl1, reduceIte]
      rw [show 16 * (b / 16 % 16) + b % 16 = b from by omega]
      exact congrArg (b :: ·) ihr

theorem unescBytes_escBytes (bl : List Nat) (hb : ∀ b ∈ bl, b < 256) :
    unescBytes (escBytes bl) = bl := unescRun_escBytes bl hb

theorem escBytes_mem_ne (bl : List Nat) (hb : ∀ b ∈ bl, b < 256) :
    ∀ c ∈ escBytes bl, c ≠ '&' ∧ c ≠ '=' := by
  induction bl with
  | nil => simp [escBytes]
  | cons b r ih =>
    intro c hc
    have hblt : b < 256 := hb b (by simp)
    have ihr := ih fun x hx => hb x (by simp [hx])
    rw [escBytes] at hc
    by_cases hu : unreservedByte b = true
    · rw [if_pos hu] at hc
      simp only [List.cons_append, List.nil_append, List.mem_cons] at hc
      rcases hc with hc | hc
      · obtain ⟨_, _, _, h4, h5, _⟩ := unreserved_char_facts b hblt hu
        exact ⟨hc ▸ h4, hc ▸ h5⟩
      · exact ihr c hc
    · rw [if_neg hu] at hc
      simp only [List.cons_append, List.nil_append, List.mem_cons] at hc
      obtain ⟨_, _, _, hh4, hh5⟩ := hexU_facts (b / 16 % 16) (by omega)
      obtain ⟨_, _, _, hl4, hl5⟩ := hexU_facts (b % 16) (by omega)
      rcases hc with hc | hc | hc | hc
      · exact ⟨hc ▸ (by decide), hc ▸ (by decide)⟩
      · exact ⟨hc ▸ hh4, hc ▸ hh5⟩
      · exact ⟨hc ▸ hl4, hc ▸ hl5⟩
      · exact ihr c hc

theorem splitChar_not_mem (sep : Char) (l : List Char) (h : sep ∉ l) :
    splitChar sep l = [l] := by
  induction l with
  | nil => rfl
  | cons x xs ih =>
    have hx : x ≠ sep := fun he => h (he ▸ List.mem_cons_self x xs)
    have hxs : sep ∉ xs := fun hm => h (List.mem_cons_of_mem _ hm)
    simp only [splitChar, ih hxs]
    rw [if_neg hx]

theorem splitChar_append (sep : Char) (p t : List Char) (hp : sep ∉ p) :
    splitChar sep (p ++ sep :: t) = p :: splitChar sep t := by
  induction p with
  | nil =>
    simp only [List.nil_append, splitChar]
    cases h : splitChar sep t with
    | nil => exact absurd h (splitChar_ne_nil sep t)
    | cons cur rest => simp
  | cons x xs ih =>
    have hx : x ≠ sep := fun he => hp (he ▸ List.mem_cons_self x xs)
    have hxs : sep ∉ xs := fun hm => hp (List.mem_cons_of_mem _ hm)
    have ih' : splitChar sep (xs.append (sep :: t)) = xs :: splitChar sep t := ih hxs
    simp only [List.cons_append, splitChar, ih']
    rw [if_neg hx]

theorem splitChar_intercalate (sep : Char) (ps : List (List Char)) (hne : ps ≠ [])
    (hmem : ∀ p ∈ ps, sep ∉ p) :
    splitChar sep (intercalateCh sep ps) = ps := by
  induction ps with
  | nil => exact absurd rfl hne
  | cons p rest ih =>
    cases rest with
    | nil => exact splitChar_not_mem sep p (hmem p (by simp))
    | cons q rest2 =>
      rw [show intercalateCh sep (p :: q :: rest2) = p ++ sep :: intercalateCh sep (q :: rest2)
          from rfl]
      rw [splitChar_append sep p _ (hmem p (by simp)),
        ih (by simp) fun x hx => hmem x (List.mem_cons_of_mem _ hx)]

theorem splitFirst_append (sep : Char) (k v : List Char) (hk : sep ∉ k) :
    splitFirst sep (k ++ sep :: v) = (k, some v) := by
  induction k with
  | nil => simp [splitFirst]
  | cons x xs ih =>
    have hx : x ≠ sep := fun he => hk (he ▸ List.mem_cons_self x xs)
    have hxs : sep ∉ xs := fun hm => hk (List.mem_cons_of_mem _ hm)
    have ih' : splitFirst sep (xs.append (sep :: v)) = (xs, some v) := ih hxs
    simp only [List.cons_append, splitFirst, if_neg hx, ih']

theorem intercalateCh_ne_nil (sep : Char) (ps : List (List Char)) (h0 : ps ≠ [])
    (h1 : ∀ p ∈ ps, p ≠ []) : intercalateCh sep ps ≠ [] := by
  cases ps with
  | nil => exact absurd rfl h0
  | cons p rest =>
    cases rest with
    | nil => exact h1 p (by simp)
    | cons q rest2 =>
      rw [show intercalateCh sep (p :: q :: rest2) = p ++ sep :: intercalateCh sep (q :: rest2)
          from rfl]
      cases p <;> simp

theorem parsePair_mk (k v : String) :
    parsePair (escBytes (utf8Encode k) ++ '=' :: escBytes (utf8Encode v)) = (k, v) := by
  have hk : '=' ∉ escBytes (utf8Encode k) := fun hm =>
    (escBytes_mem_ne _ (utf8Chars_mem_lt _) '=' hm).2 rfl
  rw [parsePair, splitFirst_append _ _ _ hk]
  simp only [Option.getD_some]
  rw [show unescBytes (escBytes (utf8Encode k)) = utf8Encode k from
      unescBytes_escBytes _ (utf8Chars_mem_lt _),
    show unescBytes (escBytes (utf8Encode v)) = utf8Encode v from
      unescBytes_escBytes _ (utf8Chars_mem_lt _),
    utf8DecodeStr_encode, utf8DecodeStr_encode]

theorem parseQS_stringifyQS (m : List (String × String)) (hlen : m.length ≤ 1000) :
    parseQS (stringifyQS m) = m := by
  cases m with
  | nil => rfl
  | cons kv rest =>
    have hnn : ∀ p ∈ (kv :: rest).map
        (fun kv => escBytes (utf8Encode kv.1) ++ '=' :: escBytes (utf8Encode kv.2)), p ≠ [] := by
      intro p hp
      simp only [List.mem_map] at hp
      obtain ⟨x, _, hx⟩ := hp
      rw [← hx]
      cases h : escBytes (utf8Encode x.1) <;> simp
    have hns : ∀ p ∈ (kv :: rest).map
        (fun kv => escBytes (utf8Encode kv.1) ++ '=' :: escBytes (utf8Encode kv.2)),
        '&' ∉ p := by
      intro p hp hmem
      simp only [List.mem_map] at hp
      obtain ⟨x, _, hx⟩ := hp
      rw [← hx] at hmem
      rcases List.mem_append.mp hmem with hm | hm
      · exact (escBytes_mem_ne _ (utf8Chars_mem_lt _) '&' hm).1 rfl
      · rcases List.mem_cons.mp hm with hm | hm
        · exact absurd hm (by decide)
        · exact (escBytes_mem_ne _ (utf8Chars_mem_lt _) '&' hm).1 rfl
    rw [stringifyQS, parseQS]
    rw [if_neg (by
      simpa using intercalateCh_ne_nil '&' _ (by simp) hnn)]
    rw [show (String.mk (intercalateCh '&' ((kv :: rest).map
        (fun kv => escBytes (utf8Encode kv.1) ++ '=' :: escBytes (utf8Encode kv.2))))).data
        = intercalateCh '&' ((kv :: rest).map
        (fun kv => escBytes (utf8Encode kv.1) ++ '=' :: escBytes (utf8Encode kv.2))) from rfl]
    rw [splitChar_intercalate '&' _ (by simp) hns]
    rw [List.take_of_length_le (by simpa using hlen), List.map_map]
    rw [show (parsePair ∘ fun kv => escBytes (utf8Encode kv.1) ++ '=' :: escBytes (utf8Encode kv.2))
        = fun kv : String × String => (kv.1, kv.2) from funext fun kv => parsePair_mk kv.1 kv.2]
    simp

/-- `querystring.parse` never yields more than the `maxKeys = 1000` pairs. -/
theorem parseQS_length_le (s : String) : (parseQS s).length ≤ 1000 := by
  unfold parseQS
  split
  · simp
  · simp only [List.length_map, List.length_take]
    omega

/-- C8, counterexample to the claim as stated: a flat mapping with 1001
pairwise-distinct keys (key `i` is the string of `i` letters `a`) does not
survive the round trip — the decoder's `querystring.parse` keeps only the
first 1000 pairs, so `decode(encode(payload))` is shorter than the
payload. -/
theorem c8_counterexample :
    ((((List.range 1001).map fun i => (String.mk (List.replicate i 'a'), "")).map
        Prod.fst)).Nodup ∧
    decodeBody (slackEncode ((List.range 1001).map
        fun i => (String.mk (List.replicate i 'a'), "")))
      ≠ (List.range 1001).map fun i => (String.mk (List.replicate i 'a'), "") := by
  constructor
  · rw [List.map_map]
    refine List.Nodup.map ?_ (List.nodup_range 1001)
    intro a b hab
    have := congrArg String.length hab
    simpa [String.length] using this
  · intro h
    have h1 : (decodeBody (slackEncode ((List.range 1001).map
        fun i => (String.mk (List.replicate i 'a'), "")))).length ≤ 1000 :=
      parseQS_length_le _
    rw [h] at h1
    simp only [List.length_map, List.length_range] at h1
    omega

/-- C8 as amended: decoding is a left inverse of encoding for every flat
string-to-string mapping with at most 1000 entries — the default `maxKeys`
limit of Node's `querystring.parse`, which the decode pipeline inherits;
beyond 1000 entries the parse truncates and the round trip fails.  The
payload is a list of pairs; the `Nodup` hypothesis states its keys are
distinct, which is what makes it a faithful image of a flat
JavaScript-object mapping (a JS object cannot carry a duplicate key). -/
theorem c8_decode_encode (m : List (String × String)) (hnd : (m.map Prod.fst).Nodup)
    (hlen : m.length ≤ 1000) :
    decodeBody (slackEncode m) = m := by
  rw [decodeBody, slackEncode,
    b64Decode_encode (utf8Encode (stringifyQS m)) (utf8Chars_mem_lt (stringifyQS m).data),
    utf8DecodeStr_encode, parseQS_stringifyQS m hlen]

/-- Witness for the amended C8 at a concrete payload. -/
theorem c8_decode_encode_witness :
    (([("command", "/saga"), ("text", "tag v1"), ("user_name", "jo")] :
        List (String × String)).map Prod.fst).Nodup ∧
    ([("command", "/saga"), ("text", "tag v1"), ("user_name", "jo")] :
        List (String × String)).length ≤ 1000 ∧
    decodeBody (slackEncode [("command", "/saga"), ("text", "tag v1"), ("user_name", "jo")])
      = [("command", "/saga"), ("text", "tag v1"), ("user_name", "jo")] :=
  ⟨by decide, by decide, c8_decode_encode _ (by decide) (by decide)⟩

end Saga
